import Mathlib

/-!
Verification development for the KAIROS ML service
(`src/ml-service/app.py`), a Flask model-lifecycle service.

The embedding below translates the core of `app.py` into Lean:

* Python `dict`s (`loaded_models`, `scalers`, and the on-disk artifact
  layout) become association lists over `String` keys with
  insert-or-update (`dinsert`), delete (`derase`) and lookup (`dlookup`)
  mirroring `d[k] = v`, `del d[k]` and `d.get(k)`.
* The fitted regressor and the fitted `StandardScaler` are opaque
  external objects in the source (joblib blobs with `.predict` /
  `.transform`); they are embedded as structures carrying their trained
  feature width plus an abstract per-row function, and their `predict` /
  `transform` methods reproduce sklearn's shape discipline: both demand
  a 2-D input whose row width equals the trained width, and fail
  (raise, embedded as `none`) otherwise.
* `np.array` applied to a JSON `features` field yields a 1-D vector, a
  rectangular 2-D matrix, or raises on ragged rows; this is `toNDArray`.
* Disk artifacts can be absent, present-but-unreadable (`joblib.load`
  raises), or readable: `DiskFile` has `corrupt` and `good` states, and
  absence is modelled by the name not being bound in the corresponding
  association list.
* Writes can fail (`joblib.dump` / `open` raising): `Disk.writeFails`
  models a medium that rejects writes, which `save_model` surfaces as
  its `False` return, exactly as the `except` clause in the source does.

Feature values are embedded as integers; none of the verified
properties depend on floating-point arithmetic, only on shapes,
determinism and state.
-/

namespace Kairos

/-- Lookup in an association list, mirroring Python `d.get(k)` /
`d[k]`: the first binding of the key wins. -/
def dlookup (k : String) : List (String × α) → Option α
  | [] => none
  | (k', v) :: rest => if k' = k then some v else dlookup k rest

/-- Insert-or-update, mirroring Python `d[k] = v`: an existing binding
is updated in place, a new key is appended at the end. -/
def dinsert (k : String) (v : α) : List (String × α) → List (String × α)
  | [] => [(k, v)]
  | (k', v') :: rest =>
      if k' = k then (k, v) :: rest else (k', v') :: dinsert k v rest

/-- Deletion, mirroring Python `del d[k]` (callers in the source only
delete keys they have just membership-tested). -/
def derase (k : String) : List (String × α) → List (String × α)
  | [] => []
  | (k', v') :: rest =>
      if k' = k then rest else (k', v') :: derase k rest

/-- Key sequence of an association list. -/
def dkeys : List (String × α) → List String
  | [] => []
  | (k, _) :: rest => k :: dkeys rest

/-- Opaque fitted regressor. The concrete algorithm
(`RandomForestRegressor(n_estimators=100, random_state=42)`) is an
external capability; what the lifecycle logic observes is its trained
feature width (`n_features_in_`) and that it is a fixed deterministic
per-row function. -/
structure Model where
  nFeatures : Nat
  eval : List Int → Int

/-- Opaque fitted `StandardScaler`: trained feature width plus a
deterministic per-row transform. -/
structure Scaler where
  nFeatures : Nat
  transformRow : List Int → List Int

/-- A numpy array as produced from a JSON `features` field: 1-D vector
or rectangular 2-D matrix. -/
inductive NDArray
  | one (v : List Int)
  | two (rows : List (List Int))
deriving DecidableEq

/-- The raw JSON `features` field: a flat list of numbers or a list of
rows. -/
inductive Features
  | vec (v : List Int)
  | mat (rows : List (List Int))
deriving DecidableEq

/-- `np.array` on the JSON value: a flat list gives a 1-D array (an
empty list of rows also collapses to the empty 1-D array), a list of
equal-length rows gives a 2-D array, and ragged rows raise
(`none`). -/
def toNDArray : Features → Option NDArray
  | .vec v => some (.one v)
  | .mat [] => some (.one [])
  | .mat (r :: rs) =>
      if rs.all (fun r' => r'.length = r.length) then some (.two (r :: rs))
      else none

/-- `model.predict`: sklearn validates a 2-D input of the trained
width and raises otherwise; on success it maps the learned function
over the rows. -/
def Model.predict (m : Model) : NDArray → Option (List Int)
  | .one _ => none
  | .two rows =>
      if rows.all (fun r => r.length = m.nFeatures) then
        some (rows.map m.eval)
      else none

/-- `scaler.transform`: sklearn validates a 2-D input whose width is
the fitted width and raises otherwise; on success it transforms each
row. -/
def Scaler.transform (s : Scaler) : NDArray → Option NDArray
  | .one _ => none
  | .two rows =>
      if rows.all (fun r => r.length = s.nFeatures) then
        some (.two (rows.map s.transformRow))
      else none

/-- State of one artifact file that is present on disk: readable, or
present but raising on `joblib.load`. -/
inductive DiskFile (α : Type)
  | corrupt
  | good (a : α)

/-- Metadata record: a JSON object of descriptive fields. -/
abbrev Meta : Type := List (String × String)

/-- The persistence store under `MODEL_STORAGE_PATH`: per model name
`N`, the files `N.joblib`, `N_scaler.joblib` and `N_metadata.json` are
the three association lists (a name absent from a list has no such
file). `dirExists` tracks the storage directory, `writeFails` models a
medium on which `joblib.dump`/`open` raise. -/
structure Disk where
  dirExists : Bool
  writeFails : Bool
  models : List (String × DiskFile Model)
  scalers : List (String × DiskFile Scaler)
  metas : List (String × Meta)

/-- The process-wide registry: the globals `loaded_models` and
`scalers` of `app.py`. Note the `scalers` dict stores `None` for a
model loaded without a scaler file, hence `Option Scaler` values. -/
structure Registry where
  loaded_models : List (String × Model)
  scalers : List (String × Option Scaler)

/-- The registry at process start: both globals are `{}`. -/
def Registry.empty : Registry := ⟨[], []⟩

/-- `load_model(model_name)`: if `N.joblib` exists, load it, then load
`N_scaler.joblib` if that exists (else scaler is `None`), and only
then write both registry entries and return `True`; a missing model
file returns `False`, and any `joblib.load` exception is caught and
returns `False` — in every failure case before the two registry
assignments, so the registry is untouched. -/
def load_model (model_name : String) (disk : Disk) (reg : Registry) :
    Bool × Registry :=
  match dlookup model_name disk.models with
  | none => (false, reg)
  | some .corrupt => (false, reg)
  | some (.good model) =>
      match dlookup model_name disk.scalers with
      | some .corrupt => (false, reg)
      | some (.good s) =>
          (true,
           { loaded_models := dinsert model_name model reg.loaded_models,
             scalers := dinsert model_name (some s) reg.scalers })
      | none =>
          (true,
           { loaded_models := dinsert model_name model reg.loaded_models,
             scalers := dinsert model_name none reg.scalers })

/-- The scaler value that a successful `load_model name` stores in the
registry: the scaler artifact when readable, else `None`. -/
def loadedScaler (disk : Disk) (model_name : String) : Option Scaler :=
  match dlookup model_name disk.scalers with
  | some (.good s) => some s
  | _ => none

/-- `save_model(model, scaler, model_name, metadata=None)`: ensures
the storage directory, always dumps the model, dumps the scaler only
when one is supplied (`if scaler:`), and writes the metadata record —
with `saved_at` set to the current timestamp — only when metadata is
supplied and truthy (`if metadata:`; an empty dict is falsy). Returns
`False` when the medium raises. `now` is the wall-clock timestamp. -/
def save_model (model : Model) (scaler : Option Scaler)
    (model_name : String) (metadata : Option Meta) (now : String)
    (disk : Disk) : Bool × Disk :=
  if disk.writeFails then (false, disk)
  else
    let d1 : Disk :=
      { disk with
        dirExists := true,
        models := dinsert model_name (.good model) disk.models }
    let d2 : Disk :=
      match scaler with
      | some s => { d1 with scalers := dinsert model_name (.good s) d1.scalers }
      | none => d1
    let d3 : Disk :=
      match metadata with
      | some md =>
          if md.isEmpty then d2
          else { d2 with metas := dinsert model_name (dinsert "saved_at" now md) d2.metas }
      | none => d2
    (true, d3)

/-- Body of a `POST /train` request; `none` fields are absent from
the JSON object. -/
structure TrainRequest where
  features : Option Features
  target : Option (List Int)
  model_name : Option String

/-- Outcome of `POST /train` as the dispatcher sees it: success
payload, HTTP 400, or HTTP 500. -/
inductive TrainResult
  | ok (metadata : Meta)
  | err400
  | err500
deriving DecidableEq

/-- Test-partition size of `train_test_split(..., test_size=0.2)`:
`ceil(0.2 * n)`. -/
def testCount (n : Nat) : Nat := (n + 4) / 5

/-- The fitted `StandardScaler` produced by
`StandardScaler().fit(X_train)`: an external, deterministic numeric
capability. The embedding records its trained width and represents the
(opaque) standardization as a deterministic width-preserving row map. -/
def fitScaler (Xtrain : List (List Int)) : Scaler :=
  { nFeatures := (Xtrain.headD []).length,
    transformRow := fun r => r }

/-- The fitted `RandomForestRegressor(n_estimators=100,
random_state=42)` trained on the scaled training partition: an
external, deterministic (fixed seed) capability. The embedding records
the trained width and represents the learned per-row map by a fixed
deterministic function of the training data. -/
def fitModel (Xtrain : List (List Int)) (ytrain : List Int) : Model :=
  { nFeatures := (Xtrain.headD []).length,
    eval := fun r =>
      r.foldl (· + ·) (ytrain.foldl (· + ·) (Int.ofNat Xtrain.length)) }

/-- The scaler `StandardScaler().fit(X_train)` produces for a
training matrix: fitted on the training partition of the
deterministic 80/20 split only (never on the test rows). -/
def trainedScaler (rows : List (List Int)) : Scaler :=
  fitScaler (rows.drop (testCount rows.length))

/-- The regressor fitted on the scaled training partition of the
deterministic 80/20 split. -/
def trainedModel (rows : List (List Int)) (t : List Int) : Model :=
  fitModel
    ((rows.drop (testCount rows.length)).map (trainedScaler rows).transformRow)
    (t.drop (testCount rows.length))

/-- The metadata record the trainer builds: model kind, feature count
`d`, sample count `n`, the two scores (opaque external numerics) and
the training timestamp. -/
def trainMetadata (rows : List (List Int)) (now : String) : Meta :=
  [("model_type", "RandomForestRegressor"),
   ("features_count", toString (rows.headD []).length),
   ("samples_count", toString rows.length),
   ("train_score", "train_score"),
   ("test_score", "test_score"),
   ("trained_at", now)]

/-- `train_model()` (`POST /train`). Mirrors the source order:
missing body or missing `features`/`target` keys → 400; then
`np.array` conversion (ragged rows raise → caught → 500); then the
numeric pipeline `train_test_split` → `StandardScaler().fit_transform`
→ `model.fit`, whose precondition violations raise and are caught by
the blanket `except` → 500 (1-D features: the scaler demands 2-D;
fewer than 2 rows: the 80/20 split leaves an empty train partition;
target length mismatch: inconsistent sample counts; width 0: the
scaler demands at least one feature). On numeric success the model is
saved; only if `save_model` returns `True` are the two registry
entries written and 200 returned, else 500. -/
def train_model (req : Option TrainRequest) (now : String) (disk : Disk)
    (reg : Registry) : TrainResult × Disk × Registry :=
  match req with
  | none => (.err400, disk, reg)
  | some data =>
    match data.features, data.target with
    | some f, some t =>
      match toNDArray f with
      | none => (.err500, disk, reg)
      | some (.one _) => (.err500, disk, reg)
      | some (.two rows) =>
          if rows.length < 2 then (.err500, disk, reg)
          else if t.length ≠ rows.length then (.err500, disk, reg)
          else if (rows.headD []).length = 0 then (.err500, disk, reg)
          else
            match save_model (trainedModel rows t) (some (trainedScaler rows))
                (data.model_name.getD "default_model")
                (some (trainMetadata rows now)) now disk with
            | (true, disk') =>
                (.ok (trainMetadata rows now), disk',
                 { loaded_models :=
                     dinsert (data.model_name.getD "default_model")
                       (trainedModel rows t) reg.loaded_models,
                   scalers :=
                     dinsert (data.model_name.getD "default_model")
                       (some (trainedScaler rows)) reg.scalers })
            | (false, disk') => (.err500, disk', reg)
    | _, _ => (.err400, disk, reg)

/-- Body of a `POST /predict` request. -/
structure PredictRequest where
  features : Option Features
  model_name : Option String

/-- Outcome of `POST /predict` as the dispatcher sees it. -/
inductive PredictResult
  | ok (predictions : List Int)
  | err400
  | err404
  | err500
deriving DecidableEq

/-- Inference step of `predict()` (lines 203–216 of `app.py`):
`if scaler:` — a `scaler` bound to a stored `None` is falsy. Only the
scaler branch promotes a 1-D vector via `reshape(1, -1)`; the
no-scaler branch passes the array through unchanged to
`model.predict`. Shape errors from `transform`/`predict` raise and are
caught by the handler's blanket `except` → 500. -/
def runInference (model : Model) (scaler : Option Scaler) (arr : NDArray) :
    PredictResult :=
  match scaler with
  | some s =>
      let arr1 :=
        match arr with
        | .one v => NDArray.two [v]
        | a => a
      match s.transform arr1 with
      | none => .err500
      | some scaled =>
        match model.predict scaled with
        | none => .err500
        | some ps => .ok ps
  | none =>
      match model.predict arr with
      | none => .err500
      | some ps => .ok ps

/-- `predict()` (`POST /predict`), the stateful wrapper around
`runInference`, in source order: missing body or keys → 400;
`np.array` on the features (ragged raises → 500); residency check — on
a cache miss `load_model` is attempted, failure → 404; then
`model = loaded_models[model_name]`,
`scaler = scalers.get(model_name)`, and the inference step. Inference
never mutates the registry, so the endpoint returns it as the
residency phase left it. Alongside the response and the registry, the
embedding returns how many times the store was consulted for a model
load, for the lazy-load idempotence property. -/
def predict (req : Option PredictRequest) (disk : Disk) (reg : Registry) :
    PredictResult × Registry × Nat :=
  match req with
  | none => (.err400, reg, 0)
  | some data =>
    match data.features, data.model_name with
    | some feats, some model_name =>
      match toNDArray feats with
      | none => (.err500, reg, 0)
      | some arr =>
        let resident :=
          if (dlookup model_name reg.loaded_models).isSome then (true, reg, 0)
          else
            let (okLoad, reg') := load_model model_name disk reg
            (okLoad, reg', 1)
        match resident with
        | (false, reg1, cnt) => (.err404, reg1, cnt)
        | (true, reg1, cnt) =>
          match dlookup model_name reg1.loaded_models with
          | none => (.err500, reg1, cnt)
          | some model =>
              (runInference model (dlookup model_name reg1.scalers).join arr,
               reg1, cnt)
    | _, _ => (.err400, reg, 0)

/-- Outcome of `POST /unload/<model_name>`: the handler's `try` body
cannot raise (both `del`s are membership-guarded), so the embedded
result type still carries the `except` alternative to show it is never
produced. -/
inductive UnloadResult
  | ok
  | err500
deriving DecidableEq

/-- `unload_model(model_name)` (`POST /unload/<model_name>`): delete
the name from `loaded_models` if present, from `scalers` if present,
and report success. Disk is not in scope — no artifact is touched. -/
def unload_model (model_name : String) (reg : Registry) :
    UnloadResult × Registry :=
  let ms :=
    if (dlookup model_name reg.loaded_models).isSome then
      derase model_name reg.loaded_models
    else reg.loaded_models
  let ss :=
    if (dlookup model_name reg.scalers).isSome then
      derase model_name reg.scalers
    else reg.scalers
  (.ok, { loaded_models := ms, scalers := ss })

/-- The `__main__` startup sweep: list the `*.joblib` files that are
not `*_scaler.joblib` — i.e. the model-artifact keys — and call
`load_model` on each, ignoring individual results (`load_model`
swallows its own failures). -/
def startupWarm (disk : Disk) (reg : Registry) : Registry :=
  (dkeys disk.models).foldl (fun r n => (load_model n disk r).2) reg

/-- One state-mutating request against the service (the read-only
`GET /health` and `GET /models` handlers never touch the registry or
write the disk and are omitted). -/
inductive Op
  | train (req : Option TrainRequest) (now : String)
  | predict (req : Option PredictRequest)
  | load (model_name : String)
  | unload (model_name : String)
  | warm

/-- Effect of one request on the full server state. -/
def applyOp (op : Op) (st : Disk × Registry) : Disk × Registry :=
  match op with
  | .train req now =>
      let (_, d, r) := train_model req now st.1 st.2
      (d, r)
  | .predict req => (st.1, (predict req st.1 st.2).2.1)
  | .load n => (st.1, (load_model n st.1 st.2).2)
  | .unload n => (st.1, (unload_model n st.2).2)
  | .warm => (st.1, startupWarm st.1 st.2)

/-- Run a request sequence from process start: registry empty, disk
arbitrary (artifacts may have been placed out of band). -/
def runOps (disk : Disk) (ops : List Op) : Disk × Registry :=
  ops.foldl (fun st op => applyOp op st) (disk, Registry.empty)

/-- The Trainer preconditions on present `features`/`target` fields
that the claims discuss (spec §4.3): a well-formed 2-D numeric matrix
with at least 2 rows and a target of matching row count. This
predicate holds exactly when they are violated: ragged rows (the
`np.array` conversion raises), a 1-D features value, fewer than 2
rows, or a target row-count mismatch. -/
def trainerPreconditionViolated (f : Features) (t : List Int) : Prop :=
  match toNDArray f with
  | none => True
  | some (.one _) => True
  | some (.two rows) => rows.length < 2 ∨ t.length ≠ rows.length

/-- The implicit registry invariant: the two global dicts bind exactly
the same key sequence. -/
def KeysAligned (reg : Registry) : Prop :=
  dkeys reg.loaded_models = dkeys reg.scalers

/-! ### Concrete fixtures, used by witnesses and counterexamples -/

/-- A width-1 model as a registry/disk resident. -/
def model1 : Model := ⟨1, fun _ => 7⟩

/-- A width-2 model as a registry/disk resident. -/
def model2 : Model := ⟨2, fun r => r.headD 0⟩

/-- A width-2 scaler as a registry/disk resident. -/
def scaler2 : Scaler := ⟨2, fun r => r⟩

/-- A registry holding `model1` loaded without a scaler (exactly what
`load_model` leaves behind when no scaler file exists). -/
def regNoScaler : Registry := ⟨[("m1", model1)], [("m1", none)]⟩

/-- A registry holding `model2` paired with `scaler2`. -/
def regWithScaler : Registry := ⟨[("m2", model2)], [("m2", some scaler2)]⟩

/-- An empty, writable store. -/
def emptyDisk : Disk := ⟨true, false, [], [], []⟩

/-- An empty store whose medium rejects writes. -/
def failingDisk : Disk := ⟨true, true, [], [], []⟩

/-- A store holding a loadable `model2` artifact with its scaler
artifact, plus an unreadable artifact under another name. -/
def diskM2 : Disk :=
  ⟨true, false, [("bad", .corrupt), ("m2", .good model2)],
   [("m2", .good scaler2)], []⟩

/-! ### Association-list lemmas -/

theorem dlookup_dinsert_self (k : String) (v : α) (l : List (String × α)) :
    dlookup k (dinsert k v l) = some v := by
  induction l with
  | nil => simp [dinsert, dlookup]
  | cons p rest ih =>
      obtain ⟨k', v'⟩ := p
      by_cases h : k' = k
      · simp [dinsert, dlookup, h]
      · simp [dinsert, dlookup, h, ih]

theorem dlookup_dinsert_ne {k' k : String} (h : k' ≠ k) (v : α)
    (l : List (String × α)) : dlookup k (dinsert k' v l) = dlookup k l := by
  induction l with
  | nil => simp [dinsert, dlookup, h]
  | cons p rest ih =>
      obtain ⟨k'', v'⟩ := p
      by_cases h2 : k'' = k'
      · subst h2
        simp [dinsert, dlookup, h]
      · by_cases h3 : k'' = k
        · simp [dinsert, dlookup, h2, h3, Ne.symm h]
        · simp [dinsert, dlookup, h2, h3, ih]

theorem dlookup_isSome_iff (k : String) (l : List (String × α)) :
    (dlookup k l).isSome ↔ k ∈ dkeys l := by
  induction l with
  | nil => simp [dlookup, dkeys]
  | cons p rest ih =>
      obtain ⟨k', v'⟩ := p
      by_cases h : k' = k
      · simp [dlookup, dkeys, h]
      · simp [dlookup, dkeys, h, ih, Ne.symm h]

theorem dlookup_derase_ne {k' k : String} (h : k' ≠ k)
    (l : List (String × α)) : dlookup k (derase k' l) = dlookup k l := by
  induction l with
  | nil => simp [derase]
  | cons p rest ih =>
      obtain ⟨k'', v'⟩ := p
      by_cases h2 : k'' = k'
      · subst h2
        simp [derase, dlookup, h]
      · by_cases h3 : k'' = k
        · simp [derase, dlookup, h2, h3, Ne.symm h]
        · simp [derase, dlookup, h2, h3, ih]

theorem dlookup_derase_self {k : String} {l : List (String × α)}
    (h : (dkeys l).Nodup) : dlookup k (derase k l) = none := by
  induction l with
  | nil => simp [derase, dlookup]
  | cons p rest ih =>
      obtain ⟨k', v'⟩ := p
      simp only [dkeys, List.map_cons, List.nodup_cons] at h
      by_cases h2 : k' = k
      · subst h2
        cases hl : dlookup k' rest with
        | none => simp [derase, hl]
        | some v =>
            exact absurd ((dlookup_isSome_iff k' rest).1 (by simp [hl])) h.1
      · simp [derase, dlookup, h2, ih h.2]

/-- Removal of the first occurrence of a key from a key list (the
effect of `derase` on `dkeys`). -/
def lerase (k : String) : List String → List String
  | [] => []
  | k' :: rest => if k' = k then rest else k' :: lerase k rest

theorem dkeys_derase (k : String) (l : List (String × α)) :
    dkeys (derase k l) = lerase k (dkeys l) := by
  induction l with
  | nil => simp [derase, dkeys, lerase]
  | cons p rest ih =>
      obtain ⟨k', v'⟩ := p
      by_cases h : k' = k
      · simp [derase, dkeys, lerase, h]
      · simp [derase, dkeys, lerase, h, ih]

theorem dkeys_dinsert (k : String) (v : α) (l : List (String × α)) :
    dkeys (dinsert k v l) =
      if k ∈ dkeys l then dkeys l else dkeys l ++ [k] := by
  induction l with
  | nil => simp [dinsert, dkeys]
  | cons p rest ih =>
      obtain ⟨k', v'⟩ := p
      by_cases h : k' = k
      · simp [dinsert, dkeys, h]
      · by_cases h2 : k ∈ dkeys rest
        · simp [dinsert, dkeys, h, h2, ih, Ne.symm h]
        · simp [dinsert, dkeys, h, h2, ih, Ne.symm h]

/-! ### Claim C3 -/

/-- C3: if `load_model` fails — the model artifact is absent or
reading any artifact raises — the registry is completely untouched;
the registry is populated exactly when the model artifact loads and
the scaler artifact, when present, loads too, and then both entries
for that name are written together. -/
theorem load_model_failure_leaves_registry (name : String) (disk : Disk)
    (reg : Registry) :
    ((load_model name disk reg).1 = false → (load_model name disk reg).2 = reg) ∧
    ((load_model name disk reg).1 = true ↔
      (∃ m, dlookup name disk.models = some (.good m)) ∧
      dlookup name disk.scalers ≠ some .corrupt) ∧
    (∀ m, dlookup name disk.models = some (.good m) →
      dlookup name disk.scalers ≠ some .corrupt →
      (load_model name disk reg).2 =
        { loaded_models := dinsert name m reg.loaded_models,
          scalers := dinsert name (loadedScaler disk name) reg.scalers }) := by
  rcases hm : dlookup name disk.models with _ | mf
  · simp [load_model, hm]
  · rcases mf with _ | m
    · simp [load_model, hm]
    · rcases hs : dlookup name disk.scalers with _ | sf
      · simp [load_model, loadedScaler, hm, hs]
      · rcases sf with _ | s
        · simp [load_model, hm, hs]
        · simp [load_model, loadedScaler, hm, hs]

/-- Witness for C3: loading a name with no artifact on an empty store
fails and leaves the empty registry empty. -/
theorem load_model_failure_leaves_registry_witness :
    (load_model "ghost" emptyDisk Registry.empty).2 = Registry.empty :=
  (load_model_failure_leaves_registry "ghost" emptyDisk Registry.empty).1 rfl

/-! ### Claim C6 -/

/-- C6: `unload_model` is total and idempotent: it always reports
success, never touches the disk, removes exactly the named entry from
both registry dicts (other names keep their bindings), is a no-op on
an absent name, and unloading twice equals unloading once. Stated for
registries whose dicts have no duplicate keys, which is every state a
Python dict can represent. -/
theorem unload_model_idempotent_total (name : String) (reg : Registry)
    (hnm : (dkeys reg.loaded_models).Nodup)
    (hns : (dkeys reg.scalers).Nodup) :
    (unload_model name reg).1 = .ok ∧
    (∀ disk : Disk, (applyOp (.unload name) (disk, reg)).1 = disk) ∧
    dlookup name (unload_model name reg).2.loaded_models = none ∧
    dlookup name (unload_model name reg).2.scalers = none ∧
    (∀ k, k ≠ name →
      dlookup k (unload_model name reg).2.loaded_models
          = dlookup k reg.loaded_models ∧
      dlookup k (unload_model name reg).2.scalers = dlookup k reg.scalers) ∧
    (dlookup name reg.loaded_models = none →
      dlookup name reg.scalers = none → (unload_model name reg).2 = reg) ∧
    (unload_model name (unload_model name reg).2).2
      = (unload_model name reg).2 := by
  refine ⟨rfl, fun _ => rfl, ?_, ?_, ?_, ?_, ?_⟩
  · by_cases h : (dlookup name reg.loaded_models).isSome
    · simp [unload_model, h, dlookup_derase_self hnm]
    · simp only [Option.isSome] at h
      rcases hl : dlookup name reg.loaded_models with _ | v
      · simp [unload_model, hl]
      · rw [hl] at h; simp at h
  · by_cases h : (dlookup name reg.scalers).isSome
    · simp [unload_model, h, dlookup_derase_self hns]
    · rcases hl : dlookup name reg.scalers with _ | v
      · simp [unload_model, hl]
      · rw [hl] at h; simp at h
  · intro k hk
    constructor
    · by_cases h : (dlookup name reg.loaded_models).isSome
      · simp [unload_model, h, dlookup_derase_ne (Ne.symm hk)]
      · simp [unload_model, h]
    · by_cases h : (dlookup name reg.scalers).isSome
      · simp [unload_model, h, dlookup_derase_ne (Ne.symm hk)]
      · simp [unload_model, h]
  · intro h1 h2
    simp [unload_model, h1, h2]
  · have h1 : (dlookup name (derase name reg.loaded_models)) = none :=
      dlookup_derase_self hnm
    have h2 : (dlookup name (derase name reg.scalers)) = none :=
      dlookup_derase_self hns
    by_cases hm : (dlookup name reg.loaded_models).isSome <;>
      by_cases hs : (dlookup name reg.scalers).isSome <;>
        simp [unload_model, hm, hs, h1, h2]

/-- Witness for C6: unloading the resident name of `regNoScaler`. -/
theorem unload_model_idempotent_total_witness :
    (unload_model "m1" regNoScaler).1 = .ok :=
  (unload_model_idempotent_total "m1" regNoScaler
    (by simp [regNoScaler, dkeys]) (by simp [regNoScaler, dkeys])).1

/-! ### Claim C8 -/

/-- C8: on a writable medium, `save_model` always writes the model
artifact and marks the storage directory created; it writes the scaler
artifact exactly for the supplied scaler, and it writes the metadata
record — with `saved_at` bound to the timestamp — when a non-empty
metadata mapping is supplied; an absent scaler leaves the scaler files
untouched and absent metadata leaves the metadata files untouched. -/
theorem save_model_artifact_discipline (model : Model) (scaler : Option Scaler)
    (name : String) (metadata : Option Meta) (now : String) (disk : Disk)
    (hw : disk.writeFails = false) :
    (save_model model scaler name metadata now disk).1 = true ∧
    (save_model model scaler name metadata now disk).2.dirExists = true ∧
    dlookup name (save_model model scaler name metadata now disk).2.models
      = some (.good model) ∧
    (scaler = none →
      (save_model model scaler name metadata now disk).2.scalers
        = disk.scalers) ∧
    (∀ s, scaler = some s →
      dlookup name (save_model model scaler name metadata now disk).2.scalers
        = some (.good s)) ∧
    (metadata = none →
      (save_model model scaler name metadata now disk).2.metas = disk.metas) ∧
    (∀ md, metadata = some md → md.isEmpty = false →
      dlookup name (save_model model scaler name metadata now disk).2.metas
        = some (dinsert "saved_at" now md)) := by
  rcases scaler with _ | s <;> rcases metadata with _ | md
  · simp [save_model, hw, dlookup_dinsert_self]
  · by_cases he : md = [] <;>
      simp [save_model, hw, he, dlookup_dinsert_self]
  · simp [save_model, hw, dlookup_dinsert_self]
  · by_cases he : md = [] <;>
      simp [save_model, hw, he, dlookup_dinsert_self]

/-- Witness for C8: saving `model2` with its scaler and a one-field
metadata record on the empty writable store succeeds. -/
theorem save_model_artifact_discipline_witness :
    (save_model model2 (some scaler2) "m2" (some [("k", "v")]) "ts"
      emptyDisk).1 = true :=
  (save_model_artifact_discipline model2 (some scaler2) "m2"
    (some [("k", "v")]) "ts" emptyDisk rfl).1

/-! ### Claim C10 -/

/-- C10: when the numeric pipeline succeeds but persisting via
`save_model` fails, `POST /train` answers HTTP 500 and the registry is
left unchanged — the fresh model/scaler pair is cached only after the
save reports success (here the store itself is also unchanged, since
the failing medium rejects the writes wholesale). -/
theorem train_failed_save_leaves_registry (f : Features)
    (rows : List (List Int)) (t : List Int) (mn : Option String)
    (now : String) (disk : Disk) (reg : Registry)
    (harr : toNDArray f = some (.two rows))
    (hn : ¬ rows.length < 2) (ht : t.length = rows.length)
    (hd : (rows.headD []).length ≠ 0)
    (hfail : disk.writeFails = true) :
    train_model (some ⟨some f, some t, mn⟩) now disk reg
      = (.err500, disk, reg) := by
  simp [train_model, harr, hn, ht, hd, save_model, hfail]

/-- Witness for C10: a well-formed two-row training request against
the write-rejecting store. -/
theorem train_failed_save_leaves_registry_witness :
    train_model (some ⟨some (.mat [[1], [2]]), some [1, 2], some "t1"⟩)
        "ts" failingDisk Registry.empty
      = (.err500, failingDisk, Registry.empty) :=
  train_failed_save_leaves_registry (.mat [[1], [2]]) [[1], [2]] [1, 2]
    (some "t1") "ts" failingDisk Registry.empty (by decide) (by decide)
    (by decide) (by decide) rfl

/-! ### Claim C4 -/

/-- C4: a predict request naming a model that is neither
registry-resident nor stored fails 404 with the registry unchanged and
no prediction; and when the lazy load succeeds, the registry holds the
loaded model (and its scaler slot) before inference proceeds. -/
theorem predict_unknown_model_not_found (disk : Disk) (reg : Registry)
    (name : String) (feats : Features) (arr : NDArray)
    (hconv : toNDArray feats = some arr)
    (habsent : dlookup name reg.loaded_models = none) :
    (dlookup name disk.models = none →
      predict (some ⟨some feats, some name⟩) disk reg = (.err404, reg, 1)) ∧
    (∀ m, dlookup name disk.models = some (.good m) →
      dlookup name disk.scalers ≠ some .corrupt →
      dlookup name
          (predict (some ⟨some feats, some name⟩) disk reg).2.1.loaded_models
        = some m ∧
      dlookup name
          (predict (some ⟨some feats, some name⟩) disk reg).2.1.scalers
        = some (loadedScaler disk name)) := by
  constructor
  · intro hm
    simp [predict, hconv, habsent, load_model, hm]
  · intro m hm hs
    rcases hsc : dlookup name disk.scalers with _ | sf
    · simp [predict, hconv, habsent, load_model, loadedScaler, hm, hsc,
        dlookup_dinsert_self]
    · rcases sf with _ | s
      · exact absurd hsc hs
      · simp [predict, hconv, habsent, load_model, loadedScaler, hm, hsc,
          dlookup_dinsert_self]

/-- Witness for C4: predicting with the absent name `ghost` on the
empty store answers 404 and leaves the empty registry empty. -/
theorem predict_unknown_model_not_found_witness :
    predict (some ⟨some (.mat [[1, 2]]), some "ghost"⟩) emptyDisk
        Registry.empty
      = (.err404, Registry.empty, 1) :=
  (predict_unknown_model_not_found emptyDisk Registry.empty "ghost"
    (.mat [[1, 2]]) (.two [[1, 2]]) (by decide) rfl).1 rfl

/-! ### Claim C5 -/

/-- C5: for a loadable, not-yet-cached model, two identical predict
calls in a row perform exactly one disk load — the first call consults
the store once and populates the registry, the second finds the name
resident and consults the store zero times — and both calls return the
same response (the second also leaves the registry exactly as the
first left it). -/
theorem predict_lazy_load_idempotent (disk : Disk) (reg : Registry)
    (name : String) (feats : Features) (arr : NDArray) (m : Model)
    (hconv : toNDArray feats = some arr)
    (habsent : dlookup name reg.loaded_models = none)
    (hm : dlookup name disk.models = some (.good m))
    (hs : dlookup name disk.scalers ≠ some .corrupt) :
    (predict (some ⟨some feats, some name⟩) disk reg).2.2 = 1 ∧
    (predict (some ⟨some feats, some name⟩) disk
        (predict (some ⟨some feats, some name⟩) disk reg).2.1).2.2 = 0 ∧
    (predict (some ⟨some feats, some name⟩) disk
        (predict (some ⟨some feats, some name⟩) disk reg).2.1).1
      = (predict (some ⟨some feats, some name⟩) disk reg).1 ∧
    (predict (some ⟨some feats, some name⟩) disk
        (predict (some ⟨some feats, some name⟩) disk reg).2.1).2.1
      = (predict (some ⟨some feats, some name⟩) disk reg).2.1 := by
  rcases hsc : dlookup name disk.scalers with _ | sf
  · simp [predict, hconv, habsent, load_model, hm, hsc, dlookup_dinsert_self]
  · rcases sf with _ | s
    · exact absurd hsc hs
    · simp [predict, hconv, habsent, load_model, hm, hsc,
        dlookup_dinsert_self]

/-- Witness for C5: the store `diskM2` holds `m2` with a scaler; the
registry starts empty. -/
theorem predict_lazy_load_idempotent_witness :
    (predict (some ⟨some (.vec [3, 4]), some "m2"⟩) diskM2
        Registry.empty).2.2 = 1 :=
  (predict_lazy_load_idempotent diskM2 Registry.empty "m2" (.vec [3, 4])
    (.one [3, 4]) model2 rfl rfl (by simp [diskM2, dlookup])
    (by simp [diskM2, dlookup])).1

/-! ### Claim C1 -/

/-- Counterexample to C1: `regNoScaler` holds a registry-resident
model of trained width 1 with no scaler. A 1-D feature vector of that
width is passed to `model.predict` unpromoted and the call answers
HTTP 500, while the equivalent single-row matrix succeeds with one
prediction — refuting "for every model resident in the Registry (with
or without an associated scaler), calling predict with a 1-D feature
vector of the model's trained width succeeds". -/
theorem predict_oneD_no_scaler_counterexample :
    (predict (some ⟨some (.vec [5]), some "m1"⟩) emptyDisk regNoScaler).1
      = .err500 ∧
    (predict (some ⟨some (.mat [[5]]), some "m1"⟩) emptyDisk regNoScaler).1
      = .ok [7] :=
  ⟨rfl, rfl⟩

/-- C1 (amended): the 1-D promotion happens only on the scaler path.
For a registry-resident model with a scaler of the trained width (the
scaler transform preserving the row width, as a fitted standardizer
does), predicting on a 1-D vector of that width succeeds with exactly
one prediction and agrees with the single-row matrix; for a resident
model without a scaler, the 1-D vector reaches `model.predict`
unpromoted and the call fails with a server error. -/
theorem predict_oneD_promotion_scaler_only :
    (∀ (disk : Disk) (reg : Registry) (name : String) (m : Model)
        (s : Scaler) (v : List Int),
      dlookup name reg.loaded_models = some m →
      dlookup name reg.scalers = some (some s) →
      v.length = s.nFeatures →
      (s.transformRow v).length = m.nFeatures →
      predict (some ⟨some (.vec v), some name⟩) disk reg
          = (.ok [m.eval (s.transformRow v)], reg, 0) ∧
      predict (some ⟨some (.mat [v]), some name⟩) disk reg
          = (.ok [m.eval (s.transformRow v)], reg, 0)) ∧
    (∀ (disk : Disk) (reg : Registry) (name : String) (m : Model)
        (v : List Int),
      dlookup name reg.loaded_models = some m →
      dlookup name reg.scalers = some none →
      (predict (some ⟨some (.vec v), some name⟩) disk reg).1 = .err500) := by
  constructor
  · intro disk reg name m s v hm hs hv hl
    constructor
    · simp [predict, toNDArray, runInference, Scaler.transform, Model.predict,
        hm, hs, hv, hl]
    · simp [predict, toNDArray, runInference, Scaler.transform, Model.predict,
        hm, hs, hv, hl]
  · intro disk reg name m v hm hs
    simp [predict, toNDArray, runInference, Model.predict, hm, hs]

/-- Witness for C1 (amended): `regWithScaler` holds `model2` and
`scaler2`, both of width 2; the vector `[3, 4]` is promoted and
predicted. -/
theorem predict_oneD_promotion_scaler_only_witness :
    predict (some ⟨some (.vec [3, 4]), some "m2"⟩) emptyDisk regWithScaler
      = (.ok [3], regWithScaler, 0) :=
  ((predict_oneD_promotion_scaler_only.1 emptyDisk regWithScaler "m2"
    model2 scaler2 [3, 4] rfl rfl rfl rfl).1)

/-! ### Claim C2 -/

/-- Counterexample to C2: the training request
`{features: [[1]], target: [1], model_name: "t1"}` violates the
Trainer precondition (a single row cannot be 80/20-split), yet the
endpoint answers HTTP 500 — the `train_test_split` exception is caught
by the blanket handler — not the claimed HTTP 400. -/
theorem train_shape_violation_counterexample :
    (train_model (some ⟨some (.mat [[1]]), some [1], some "t1"⟩) "ts"
        emptyDisk Registry.empty).1 = .err500 ∧
    TrainResult.err500 ≠ TrainResult.err400 := by
  exact ⟨rfl, by decide⟩

/-- C2 (amended): a train request with a missing body or missing
`features`/`target` field fails HTTP 400, and a request whose present
features/target violate the Trainer preconditions (ragged or 1-D
features, fewer than 2 rows, or a target row-count mismatch) raises in
the numeric pipeline and fails HTTP 500; in every such case no
artifact is written and the registry is untouched. -/
theorem train_invalid_input_behavior :
    (∀ (now : String) (disk : Disk) (reg : Registry),
      train_model none now disk reg = (.err400, disk, reg)) ∧
    (∀ (req : TrainRequest) (now : String) (disk : Disk) (reg : Registry),
      req.features = none ∨ req.target = none →
      train_model (some req) now disk reg = (.err400, disk, reg)) ∧
    (∀ (f : Features) (t : List Int) (mn : Option String) (now : String)
        (disk : Disk) (reg : Registry),
      trainerPreconditionViolated f t →
      train_model (some ⟨some f, some t, mn⟩) now disk reg
        = (.err500, disk, reg)) := by
  refine ⟨fun _ _ _ => rfl, ?_, ?_⟩
  · rintro ⟨rf, rt, rn⟩ now disk reg h
    rcases h with h | h <;> subst h
    · rcases rt with _ | t <;> rfl
    · rcases rf with _ | f <;> rfl
  · intro f t mn now disk reg h
    unfold trainerPreconditionViolated at h
    rcases hconv : toNDArray f with _ | arr
    · simp [train_model, hconv]
    · rcases arr with v | rows
      · simp [train_model, hconv]
      · rw [hconv] at h
        by_cases h2 : rows.length < 2
        · simp [train_model, hconv, h2]
        · rcases h with h | h
          · exact absurd h h2
          · simp [train_model, hconv, h2, h]

/-- Witness for C2 (amended): the one-row request from the
counterexample, now against the violated-precondition branch. -/
theorem train_invalid_input_behavior_witness :
    train_model (some ⟨some (.mat [[1]]), some [1], some "t1"⟩) "ts"
        emptyDisk Registry.empty
      = (.err500, emptyDisk, Registry.empty) :=
  train_invalid_input_behavior.2.2 (.mat [[1]]) [1] (some "t1") "ts"
    emptyDisk Registry.empty (by simp [trainerPreconditionViolated, toNDArray])

/-! ### Claim C7 -/

/-- After a successful `load_model name`, both registry entries for
`name` hold the artifacts read from disk. -/
theorem load_model_establishes (name : String) (disk : Disk) (reg : Registry)
    (m : Model) (hm : dlookup name disk.models = some (.good m))
    (hs : dlookup name disk.scalers ≠ some .corrupt) :
    dlookup name (load_model name disk reg).2.loaded_models = some m ∧
    dlookup name (load_model name disk reg).2.scalers
      = some (loadedScaler disk name) := by
  rcases hsc : dlookup name disk.scalers with _ | sf
  · simp [load_model, loadedScaler, hm, hsc, dlookup_dinsert_self]
  · rcases sf with _ | s
    · exact absurd hsc hs
    · simp [load_model, loadedScaler, hm, hsc, dlookup_dinsert_self]

/-- Loading any name never disturbs `name`'s registry entries when
`name`'s own artifacts are loadable (loading `name` itself rewrites
them to the same disk values). -/
theorem load_model_preserves_target (n name : String) (disk : Disk)
    (reg : Registry) (m : Model)
    (hm : dlookup name disk.models = some (.good m))
    (hs : dlookup name disk.scalers ≠ some .corrupt)
    (h : dlookup name reg.loaded_models = some m ∧
      dlookup name reg.scalers = some (loadedScaler disk name)) :
    dlookup name (load_model n disk reg).2.loaded_models = some m ∧
    dlookup name (load_model n disk reg).2.scalers
      = some (loadedScaler disk name) := by
  by_cases hn : n = name
  · subst hn
    exact load_model_establishes n disk reg m hm hs
  · rcases hnm : dlookup n disk.models with _ | mf
    · simpa [load_model, hnm] using h
    · rcases mf with _ | m'
      · simpa [load_model, hnm] using h
      · rcases hns : dlookup n disk.scalers with _ | sf
        · simpa [load_model, hnm, hns, dlookup_dinsert_ne hn] using h
        · rcases sf with _ | s'
          · simpa [load_model, hnm, hns] using h
          · simpa [load_model, hnm, hns, dlookup_dinsert_ne hn] using h

/-- A warm sweep over any name list keeps `name`'s loaded entries in
place. -/
theorem warm_fold_preserves_target (L : List String) (name : String)
    (disk : Disk) (reg : Registry) (m : Model)
    (hm : dlookup name disk.models = some (.good m))
    (hs : dlookup name disk.scalers ≠ some .corrupt)
    (h : dlookup name reg.loaded_models = some m ∧
      dlookup name reg.scalers = some (loadedScaler disk name)) :
    dlookup name
        (L.foldl (fun r n => (load_model n disk r).2) reg).loaded_models
      = some m ∧
    dlookup name (L.foldl (fun r n => (load_model n disk r).2) reg).scalers
      = some (loadedScaler disk name) := by
  induction L generalizing reg with
  | nil => exact h
  | cons n L ih =>
      exact ih _ (load_model_preserves_target n name disk reg m hm hs h)

/-- A warm sweep over a name list containing `name` loads it. -/
theorem warm_fold_loads_member (L : List String) (name : String)
    (disk : Disk) (reg : Registry) (m : Model)
    (hm : dlookup name disk.models = some (.good m))
    (hs : dlookup name disk.scalers ≠ some .corrupt) (hmem : name ∈ L) :
    dlookup name
        (L.foldl (fun r n => (load_model n disk r).2) reg).loaded_models
      = some m ∧
    dlookup name (L.foldl (fun r n => (load_model n disk r).2) reg).scalers
      = some (loadedScaler disk name) := by
  induction L generalizing reg with
  | nil => cases hmem
  | cons n L ih =>
      rcases List.mem_cons.1 hmem with hn | hn
      · subst hn
        exact warm_fold_preserves_target L name disk _ m hm hs
          (load_model_establishes name disk reg m hm hs)
      · exact ih _ hn

/-- C7: the startup sweep enumerates every persisted model artifact
and loads each, isolating per-artifact failures: whatever other
(possibly corrupt) artifacts the store holds, every name whose model
artifact is readable and whose scaler artifact is readable-or-absent
ends up resident in the registry with its disk artifacts — one bad
artifact never aborts the loading of the rest. -/
theorem startup_warm_failure_isolation (disk : Disk) (reg : Registry)
    (name : String) (m : Model)
    (hm : dlookup name disk.models = some (.good m))
    (hs : dlookup name disk.scalers ≠ some .corrupt) :
    dlookup name (startupWarm disk reg).loaded_models = some m ∧
    dlookup name (startupWarm disk reg).scalers
      = some (loadedScaler disk name) := by
  have hmem : name ∈ dkeys disk.models :=
    (dlookup_isSome_iff name disk.models).1 (by simp [hm])
  exact warm_fold_loads_member (dkeys disk.models) name disk reg m hm hs hmem

/-- Witness for C7: on `diskM2` — whose artifact list also carries the
unreadable artifact `bad` — the sweep from the empty registry still
loads `m2`. -/
theorem startup_warm_failure_isolation_witness :
    dlookup "m2" (startupWarm diskM2 Registry.empty).loaded_models
      = some model2 :=
  (startup_warm_failure_isolation diskM2 Registry.empty "m2" model2
    (by simp [diskM2, dlookup]) (by simp [diskM2, dlookup])).1

/-! ### Claim C9 -/

theorem dkeys_dinsert_congr (k : String) (a : α) (b : β)
    {l1 : List (String × α)} {l2 : List (String × β)}
    (h : dkeys l1 = dkeys l2) :
    dkeys (dinsert k a l1) = dkeys (dinsert k b l2) := by
  rw [dkeys_dinsert, dkeys_dinsert, h]

theorem dkeys_derase_congr (k : String)
    {l1 : List (String × α)} {l2 : List (String × β)}
    (h : dkeys l1 = dkeys l2) :
    dkeys (derase k l1) = dkeys (derase k l2) := by
  rw [dkeys_derase, dkeys_derase, h]

/-- The registry a `load_model` call leaves behind: unchanged, or both
dicts extended together under the loaded name. -/
theorem load_model_registry_shape (n : String) (disk : Disk)
    (reg : Registry) :
    (load_model n disk reg).2 = reg ∨
    ∃ m sc, (load_model n disk reg).2 =
      { loaded_models := dinsert n m reg.loaded_models,
        scalers := dinsert n sc reg.scalers } := by
  unfold load_model
  repeat' split
  all_goals first
    | exact Or.inl rfl
    | (right; exact ⟨_, _, rfl⟩)

/-- The registry a `train_model` call leaves behind: unchanged, or
both dicts extended together under the trained name. -/
theorem train_model_registry_shape (req : Option TrainRequest)
    (now : String) (disk : Disk) (reg : Registry) :
    (train_model req now disk reg).2.2 = reg ∨
    ∃ n mo sc, (train_model req now disk reg).2.2 =
      { loaded_models := dinsert n mo reg.loaded_models,
        scalers := dinsert n sc reg.scalers } := by
  rcases req with _ | ⟨rf, rt, rn⟩
  · exact Or.inl rfl
  rcases rf with _ | f
  · exact Or.inl rfl
  rcases rt with _ | t
  · exact Or.inl rfl
  unfold train_model
  repeat' split
  all_goals first
    | exact Or.inl rfl
    | (right; exact ⟨_, _, _, rfl⟩)

/-- The registry a `predict` call leaves behind: unchanged, or the
result of the lazy `load_model`. -/
theorem predict_registry_shape (req : Option PredictRequest) (disk : Disk)
    (reg : Registry) :
    (predict req disk reg).2.1 = reg ∨
    ∃ n, (predict req disk reg).2.1 = (load_model n disk reg).2 := by
  rcases req with _ | ⟨rf, rn⟩
  · exact Or.inl rfl
  rcases rf with _ | feats
  · exact Or.inl rfl
  rcases rn with _ | name
  · exact Or.inl rfl
  unfold predict
  rcases hconv : toNDArray feats with _ | arr
  · left
    simp only [hconv]
  simp only [hconv]
  by_cases hres : (dlookup name reg.loaded_models).isSome
  · simp only [hres, if_true]
    left
    cases hx : dlookup name reg.loaded_models <;> simp [hx]
  · simp only [hres, if_false, Bool.false_eq_true]
    rcases hload : load_model name disk reg with ⟨okLoad, reg'⟩
    simp only [hload]
    have h2 : (load_model name disk reg).2 = reg' := by rw [hload]
    cases okLoad
    · exact Or.inr ⟨name, h2.symm⟩
    · right
      refine ⟨name, ?_⟩
      cases hx : dlookup name reg'.loaded_models <;> simp [hx, h2]

theorem load_model_preserves_aligned (n : String) (disk : Disk)
    (reg : Registry) (h : KeysAligned reg) :
    KeysAligned (load_model n disk reg).2 := by
  rcases load_model_registry_shape n disk reg with hsh | ⟨m, sc, hsh⟩
  · rw [hsh]; exact h
  · rw [hsh]; exact dkeys_dinsert_congr n m sc h

theorem train_model_preserves_aligned (req : Option TrainRequest)
    (now : String) (disk : Disk) (reg : Registry) (h : KeysAligned reg) :
    KeysAligned (train_model req now disk reg).2.2 := by
  rcases train_model_registry_shape req now disk reg with hsh | ⟨n, mo, sc, hsh⟩
  · rw [hsh]; exact h
  · rw [hsh]; exact dkeys_dinsert_congr n mo sc h

theorem predict_preserves_aligned (req : Option PredictRequest)
    (disk : Disk) (reg : Registry) (h : KeysAligned reg) :
    KeysAligned (predict req disk reg).2.1 := by
  rcases predict_registry_shape req disk reg with hsh | ⟨n, hsh⟩
  · rw [hsh]; exact h
  · rw [hsh]; exact load_model_preserves_aligned n disk reg h

theorem unload_model_preserves_aligned (n : String) (reg : Registry)
    (h : KeysAligned reg) :
    KeysAligned (unload_model n reg).2 := by
  have h' : dkeys reg.loaded_models = dkeys reg.scalers := h
  have hbool : (dlookup n reg.loaded_models).isSome
      = (dlookup n reg.scalers).isSome := by
    by_cases h1 : (dlookup n reg.loaded_models).isSome <;>
      by_cases h2 : (dlookup n reg.scalers).isSome
    · rw [h1, h2]
    · exact absurd ((dlookup_isSome_iff n reg.scalers).2
        (h' ▸ (dlookup_isSome_iff n reg.loaded_models).1 h1)) h2
    · exact absurd ((dlookup_isSome_iff n reg.loaded_models).2
        (h'.symm ▸ (dlookup_isSome_iff n reg.scalers).1 h2)) h1
    · simp only [Bool.not_eq_true] at h1 h2
      rw [h1, h2]
  by_cases h1 : (dlookup n reg.loaded_models).isSome
  · have h2 : (dlookup n reg.scalers).isSome = true := hbool ▸ h1
    simpa [unload_model, h1, h2] using dkeys_derase_congr n h
  · have h2 : ¬ (dlookup n reg.scalers).isSome = true := by
      rw [← hbool]; exact h1
    simpa [unload_model, h1, h2] using h

theorem warm_preserves_aligned (disk : Disk) (reg : Registry)
    (h : KeysAligned reg) : KeysAligned (startupWarm disk reg) := by
  unfold startupWarm
  generalize dkeys disk.models = L
  induction L generalizing reg with
  | nil => exact h
  | cons n L ih =>
      exact ih _ (load_model_preserves_aligned n disk reg h)

theorem applyOp_preserves_aligned (op : Op) (st : Disk × Registry)
    (h : KeysAligned st.2) : KeysAligned (applyOp op st).2 := by
  cases op with
  | train req now =>
      have := train_model_preserves_aligned req now st.1 st.2 h
      simpa [applyOp] using this
  | predict req => exact predict_preserves_aligned req st.1 st.2 h
  | load n => exact load_model_preserves_aligned n st.1 st.2 h
  | unload n => exact unload_model_preserves_aligned n st.2 h
  | warm => exact warm_preserves_aligned st.1 st.2 h

theorem runOps_aligned (disk : Disk) (ops : List Op) :
    KeysAligned (runOps disk ops).2 := by
  unfold runOps
  have : ∀ (l : List Op) (st : Disk × Registry), KeysAligned st.2 →
      KeysAligned (l.foldl (fun s op => applyOp op s) st).2 := by
    intro l
    induction l with
    | nil => exact fun _ h => h
    | cons op l ih =>
        exact fun st h => ih _ (applyOp_preserves_aligned op st h)
  exact this ops (disk, Registry.empty) rfl

/-- C9: in every state reachable from process start by any request
sequence, the two registry dicts bind exactly the same keys — every
operation writes or removes the model entry and its scaler entry
together — so the scaler lookup for a registry-resident model is
always defined. -/
theorem registry_scaler_keys_aligned (disk : Disk) (ops : List Op)
    (k : String) :
    ((dlookup k (runOps disk ops).2.loaded_models).isSome
      ↔ (dlookup k (runOps disk ops).2.scalers).isSome) := by
  rw [dlookup_isSome_iff, dlookup_isSome_iff, runOps_aligned disk ops]

end Kairos
